import Mathlib

/-!
Shallow embedding of the transfer orchestrator in `src/lib/orchestrator.ts`
together with the domain types of `src/types/index.ts`.

Modelling conventions:
* JavaScript numbers are modelled by `ℚ`; `parseFloat(x.toFixed(2))` is
  `round2`, `parseFloat(x.toFixed(6))` is `round6` (ECMAScript `toFixed`
  picks the closest multiple of `10^-d`, ties towards the larger value,
  i.e. `⌊x * 10^d + 1/2⌋ / 10^d`).
* ISO timestamp strings produced by `new Date().toISOString()` are modelled
  by a `now : Nat` parameter supplied to each exported operation; all
  wall-clock reads inside one invocation yield the same `now`.
* `uuidv4()` values are supplied from outside: either a single `eid`
  argument or a stream `ids : Nat → String`.
* The provider adapters (`src/process/*.ts`) perform network calls; an
  adapter call is modelled by passing its outcome as an
  `Except String α` argument (`.error` = the promise rejected / threw).
  Only the response fields the orchestrator actually reads are modelled.
* The module-global `Map` of transfers is modelled by an association list
  `Store`; each operation takes the store and returns the updated store,
  so the no-write-on-error behaviour is observable.
* `process.env.PLATFORM_FEE_BPS` is absent in the deployment under study,
  so `PLATFORM_FEE_BPS` is the parsed default `50`.
-/

/-- Currency union type from `src/types/index.ts`. -/
inductive Currency
  | USD | EUR | GBP | MXN | BRL | NGN | KES | INR | PHP | USDC | USDT
deriving DecidableEq, Repr

/-- Rendering of a currency into the string used in template literals. -/
def Currency.str : Currency → String
  | .USD => "USD" | .EUR => "EUR" | .GBP => "GBP" | .MXN => "MXN"
  | .BRL => "BRL" | .NGN => "NGN" | .KES => "KES" | .INR => "INR"
  | .PHP => "PHP" | .USDC => "USDC" | .USDT => "USDT"

/-- StableCoin union type. -/
inductive StableCoin
  | USDC | USDT | PHPC
deriving DecidableEq, Repr

/-- Rendering of a stablecoin into the string used in template literals. -/
def StableCoin.str : StableCoin → String
  | .USDC => "USDC" | .USDT => "USDT" | .PHPC => "PHPC"

/-- Network union type. -/
inductive Network
  | ethereum | polygon | solana | base | arbitrum
deriving DecidableEq, Repr

/-- Rendering of a network into the string used in template literals. -/
def Network.str : Network → String
  | .ethereum => "ethereum" | .polygon => "polygon" | .solana => "solana"
  | .base => "base" | .arbitrum => "arbitrum"

/-- TransferStatus union type. -/
inductive TransferStatus
  | pending | kyc_required | processing | bridging | converting
  | settling | completed | failed | cancelled
deriving DecidableEq, Repr

/-- Provider union type. -/
inductive Provider
  | paytech | bridge | tempo
deriving DecidableEq, Repr

/-- Per-leg status values of `LegStatus.status`. -/
inductive LegState
  | pending | processing | completed | failed
deriving DecidableEq, Repr

/-- Leg-1 payment method union. -/
inductive PayMethod
  | bank_transfer | card | mobile_money
deriving DecidableEq, Repr

/-- Leg-3 payout rail union. -/
inductive Leg3Method
  | sepa | swift | local_rails
deriving DecidableEq, Repr

/-- The `legs.leg1` entry of a `TransferRoute`. -/
structure RouteLeg1 where
  provider : Provider
  method : PayMethod
  estimatedTime : Nat
  fee : ℚ
deriving DecidableEq, Repr

/-- The `legs.leg2` entry of a `TransferRoute`. -/
structure RouteLeg2 where
  provider : Provider
  stablecoin : StableCoin
  network : Network
  estimatedTime : Nat
  fee : ℚ
  fxRate : ℚ
deriving DecidableEq, Repr

/-- The `legs.leg3` entry of a `TransferRoute`. -/
structure RouteLeg3 where
  provider : Provider
  method : Leg3Method
  estimatedTime : Nat
  fee : ℚ
  fxRate : ℚ
deriving DecidableEq, Repr

/-- TransferRoute record. -/
structure TransferRoute where
  id : String
  sourceCurrency : Currency
  destinationCurrency : Currency
  sourceCountry : String
  destinationCountry : String
  leg1 : RouteLeg1
  leg2 : RouteLeg2
  leg3 : RouteLeg3
  totalFee : ℚ
  effectiveRate : ℚ
  estimatedTotalTime : Nat
deriving DecidableEq, Repr

/-- The `fees` record of a `TransferQuote`. -/
structure Fees where
  paytech : ℚ
  bridge : ℚ
  tempo : ℚ
  platform : ℚ
  total : ℚ
deriving DecidableEq, Repr

/-- TransferQuote record. -/
structure TransferQuote where
  quoteId : String
  route : TransferRoute
  sendAmount : ℚ
  receiveAmount : ℚ
  exchangeRate : ℚ
  fees : Fees
  expiresAt : Nat
  createdAt : Nat
deriving DecidableEq, Repr

/-- BankAccount record. -/
structure BankAccount where
  accountName : String
  accountNumber : Option String := none
  routingNumber : Option String := none
  iban : Option String := none
  swiftCode : Option String := none
  sortCode : Option String := none
  bankName : String
  bankCountry : String
deriving DecidableEq, Repr

/-- MobileWallet record. -/
structure MobileWallet where
  provider : String
  phoneNumber : String
  country : String
deriving DecidableEq, Repr

/-- Sender part of a `TransferRequest`. -/
structure Sender where
  name : String
  email : String
  phone : Option String := none
  bankAccount : Option BankAccount := none
  walletAddress : Option String := none
deriving DecidableEq, Repr

/-- Recipient part of a `TransferRequest`. -/
structure Recipient where
  name : String
  email : Option String := none
  phone : Option String := none
  bankAccount : Option BankAccount := none
  mobileWallet : Option MobileWallet := none
deriving DecidableEq, Repr

/-- TransferPurpose union type. -/
inductive TransferPurpose
  | family_support | business_payment | education | medical | investment | other
deriving DecidableEq, Repr

/-- TransferRequest record. -/
structure TransferRequest where
  quoteId : String
  sender : Sender
  recipient : Recipient
  purpose : TransferPurpose
  reference : Option String := none
deriving DecidableEq, Repr

/-- LegStatus record. -/
structure LegStatus where
  provider : Provider
  externalId : String
  status : LegState
  startedAt : Option Nat := none
  completedAt : Option Nat := none
  txHash : Option String := none
  errorMessage : Option String := none
deriving DecidableEq, Repr

/-- TimelineEvent record; `metadata` values are flattened to strings. -/
structure TimelineEvent where
  id : String
  timestamp : Nat
  status : TransferStatus
  message : String
  metadata : List (String × String) := []
deriving DecidableEq, Repr

/-- The `legs` map of a `Transfer` (at most one `LegStatus` per leg). -/
structure Legs where
  leg1 : Option LegStatus := none
  leg2 : Option LegStatus := none
  leg3 : Option LegStatus := none
deriving DecidableEq, Repr

/-- Transfer record, the aggregate root. -/
structure Transfer where
  id : String
  status : TransferStatus
  quote : TransferQuote
  request : TransferRequest
  legs : Legs
  timeline : List TimelineEvent
  createdAt : Nat
  updatedAt : Nat
  completedAt : Option Nat := none
deriving DecidableEq, Repr

/-- In-memory store `const transfers = new Map<string, Transfer>()`,
modelled as an association list passed through each operation. -/
def Store : Type := List (String × Transfer)

instance : DecidableEq Store := by
  unfold Store
  infer_instance

/-- Lookup, mirroring `transfers.get(id)`. -/
def storeGet (s : Store) (k : String) : Option Transfer :=
  match s with
  | [] => none
  | (k2, v) :: rest => if k2 = k then some v else storeGet rest k

/-- Insert-or-replace, mirroring `transfers.set(id, t)`. -/
def storeSet (s : Store) (k : String) (t : Transfer) : Store :=
  match s with
  | [] => [(k, t)]
  | (k2, v) :: rest => if k2 = k then (k, t) :: rest else (k2, v) :: storeSet rest k t

/-- Platform fee in basis points: `parseInt(process.env.PLATFORM_FEE_BPS || '50')`
with the env variable unset. -/
def PLATFORM_FEE_BPS : ℚ := 50

/-- Model of `parseFloat(x.toFixed(2))`. -/
def round2 (x : ℚ) : ℚ := (⌊x * 100 + 1 / 2⌋ : ℚ) / 100

/-- Model of `parseFloat(x.toFixed(6))`. -/
def round6 (x : ℚ) : ℚ := (⌊x * 1000000 + 1 / 2⌋ : ℚ) / 1000000

/-- QuoteRequest record. -/
structure QuoteRequest where
  sendAmount : ℚ
  sendCurrency : Currency
  receiveCurrency : Currency
  sendCountry : String
  receiveCountry : String
deriving DecidableEq, Repr

/-- Fields of the `getPaytechQuote` response read by the orchestrator. -/
structure PaytechFeeQuote where
  fee : ℚ
  estimatedSettlementSeconds : Nat
deriving DecidableEq, Repr

/-- Fields of the `getBridgeQuote` response read by the orchestrator. -/
structure BridgeFxQuote where
  exchangeRate : ℚ
  fee : ℚ
  estimatedSettlementSeconds : Nat
deriving DecidableEq, Repr

/-- Fields of the `getTempoQuote` response read by the orchestrator. -/
structure TempoQuote where
  quoteId : String
  exchangeRate : ℚ
  fee : ℚ
  paymentRail : Leg3Method
  estimatedSettlementSeconds : Nat
deriving DecidableEq, Repr

/-- Routing policy `selectNetwork` from the orchestrator. -/
def selectNetwork (sourceCurrency : Currency) (_destCurrency : Currency) : Network :=
  if sourceCurrency = .USD ∨ sourceCurrency = .EUR ∨ sourceCurrency = .GBP then .base
  else if sourceCurrency = .MXN ∨ sourceCurrency = .BRL ∨ sourceCurrency = .NGN then .polygon
  else .base

/-- Routing policy `selectStablecoin` from the orchestrator. -/
def selectStablecoin (_sourceCurrency : Currency) : StableCoin :=
  .USDC

/-- Step 1 of the orchestrator: `getTransferQuote`.  The three adapter
quote calls are issued with `Promise.all`; their outcomes arrive as the
three `Except` arguments, and any rejection rejects the whole call.
`routeId` and `quoteId` stand for the two `uuidv4()` draws, `now` for the
wall clock (milliseconds). -/
def getTransferQuote (request : QuoteRequest)
    (paytechRes : Except String PaytechFeeQuote)
    (bridgeRes : Except String BridgeFxQuote)
    (tempoRes : Except String TempoQuote)
    (routeId quoteId : String) (now : Nat) : Except String TransferQuote := do
  let paytechQuote ← paytechRes
  let bridgeQuote ← bridgeRes
  let tempoQuote ← tempoRes
  let sendAmount := request.sendAmount
  let stablecoin := selectStablecoin request.sendCurrency
  let network := selectNetwork request.sendCurrency request.receiveCurrency
  -- Calculate exact amounts through the chain
  let afterPaytech := sendAmount - paytechQuote.fee
  let usdcAmount := afterPaytech * bridgeQuote.exchangeRate - bridgeQuote.fee
  let receiveAmount := (usdcAmount - tempoQuote.fee) * tempoQuote.exchangeRate
  let platformFee := sendAmount * PLATFORM_FEE_BPS / 10000
  let totalFeeInSendCurrency :=
    paytechQuote.fee +
    bridgeQuote.fee / bridgeQuote.exchangeRate +
    tempoQuote.fee / bridgeQuote.exchangeRate +
    platformFee
  let effectiveRate := receiveAmount / sendAmount
  let totalTimeSeconds :=
    paytechQuote.estimatedSettlementSeconds +
    bridgeQuote.estimatedSettlementSeconds +
    tempoQuote.estimatedSettlementSeconds
  let route : TransferRoute :=
    { id := routeId
      sourceCurrency := request.sendCurrency
      destinationCurrency := request.receiveCurrency
      sourceCountry := request.sendCountry
      destinationCountry := request.receiveCountry
      leg1 :=
        { provider := .paytech
          method := .bank_transfer
          estimatedTime := paytechQuote.estimatedSettlementSeconds
          fee := paytechQuote.fee }
      leg2 :=
        { provider := .bridge
          stablecoin := stablecoin
          network := network
          estimatedTime := bridgeQuote.estimatedSettlementSeconds
          fee := bridgeQuote.fee
          fxRate := bridgeQuote.exchangeRate }
      leg3 :=
        { provider := .tempo
          method := tempoQuote.paymentRail
          estimatedTime := tempoQuote.estimatedSettlementSeconds
          fee := tempoQuote.fee
          fxRate := tempoQuote.exchangeRate }
      totalFee := round2 totalFeeInSendCurrency
      effectiveRate := round6 effectiveRate
      estimatedTotalTime := totalTimeSeconds }
  .ok
    { quoteId := quoteId
      route := route
      sendAmount := sendAmount
      receiveAmount := round2 receiveAmount
      exchangeRate := round6 effectiveRate
      fees :=
        { paytech := paytechQuote.fee
          bridge := round2 (bridgeQuote.fee / bridgeQuote.exchangeRate)
          tempo := round2 (tempoQuote.fee / bridgeQuote.exchangeRate)
          platform := platformFee
          total := round2 totalFeeInSendCurrency }
      expiresAt := now + 5 * 60 * 1000
      createdAt := now }

/-- Internal helper `addEvent`: appends a `TimelineEvent` carrying the new
status, sets `transfer.status` and refreshes `transfer.updatedAt`.  The
event id `eid` stands for the `uuidv4()` draw; both wall-clock reads are
the invocation clock `now`. -/
def addEvent (transfer : Transfer) (status : TransferStatus) (message : String)
    (metadata : List (String × String)) (now : Nat) (eid : String) : Transfer :=
  let event : TimelineEvent :=
    { id := eid, timestamp := now, status := status, message := message, metadata := metadata }
  { transfer with
      timeline := transfer.timeline ++ [event]
      status := status
      updatedAt := now }

/-- Fields of the `getTempoDepositAddress` response read by the orchestrator. -/
structure TempoDepositAddress where
  address : String
  chain : String
  currency : String
deriving DecidableEq, Repr

/-- Fields of the `createBridgeLiquidationAddress` response read by the
orchestrator. -/
structure BridgeLiquidationAddressRes where
  id : String
  address : String
deriving DecidableEq, Repr

/-- Fields of the `initiatePaytechTransfer` response read by the
orchestrator. -/
structure PaytechTransferRes where
  transferId : String
deriving DecidableEq, Repr

/-- Fields of the `createTempoPayment` response read by the orchestrator. -/
structure TempoPaymentRes where
  id : String
deriving DecidableEq, Repr

/-- Step 2 of the orchestrator: `createTransfer`.  The three awaited
adapter calls (Tempo deposit address, Bridge liquidation address, Pay.tech
initiation) arrive as `Except` arguments in call order; a `.error` models
the corresponding `await` throwing, which lands in the `catch` block.
`ids` supplies the `uuidv4()` draws for the appended timeline events;
`transferId` stands for the `uuidv4()` naming the transfer. -/
def createTransfer (s : Store) (request : TransferRequest) (quote : TransferQuote)
    (transferId : String) (now : Nat) (ids : Nat → String)
    (tempoAddressRes : Except String TempoDepositAddress)
    (bridgeLiqRes : Except String BridgeLiquidationAddressRes)
    (paytechRes : Except String PaytechTransferRes) :
    Except String Transfer × Store :=
  let route := quote.route
  let transfer : Transfer :=
    { id := transferId
      status := .pending
      quote := quote
      request := request
      legs := {}
      timeline := []
      createdAt := now
      updatedAt := now }
  let transfer := addEvent transfer .processing
    "Transfer initiated. Setting up payment infrastructure." [] now (ids 0)
  let s := storeSet s transferId transfer
  -- Step 2a: get Tempo deposit address (leg 3 receiving end)
  let transfer := addEvent transfer .processing
    "Generating Tempo settlement address for USDC receipt..." [] now (ids 1)
  match tempoAddressRes with
  | .error e =>
      let transfer := addEvent transfer .failed ("Transfer failed: " ++ e) [] now (ids 2)
      (.error e, storeSet s transferId transfer)
  | .ok _tempoAddress =>
      -- Step 2b: create Bridge liquidation address (leg 2)
      let transfer := addEvent transfer .processing
        "Creating Bridge stablecoin routing address..." [] now (ids 2)
      match bridgeLiqRes with
      | .error e =>
          let transfer := addEvent transfer .failed ("Transfer failed: " ++ e) [] now (ids 3)
          (.error e, storeSet s transferId transfer)
      | .ok bridgeLiqAddress =>
          let transfer := { transfer with
            legs := { transfer.legs with
              leg2 := some
                { provider := .bridge
                  externalId := bridgeLiqAddress.id
                  status := .pending } } }
          -- Step 2c: initiate Pay.tech fiat collection (leg 1)
          let transfer := addEvent transfer .processing
            "Initiating fiat collection via Pay.tech..." [] now (ids 3)
          match paytechRes with
          | .error e =>
              let transfer := addEvent transfer .failed ("Transfer failed: " ++ e) [] now (ids 4)
              (.error e, storeSet s transferId transfer)
          | .ok paytechTransfer =>
              let transfer := { transfer with
                legs := { transfer.legs with
                  leg1 := some
                    { provider := .paytech
                      externalId := paytechTransfer.transferId
                      status := .processing
                      startedAt := some now } } }
              let transfer := addEvent transfer .processing
                ("Pay.tech collecting " ++ toString quote.sendAmount ++ " " ++
                  route.sourceCurrency.str ++ " from sender bank.")
                [("paytechTransferId", paytechTransfer.transferId)] now (ids 4)
              -- Step 2d: pre-create Tempo payment (executed by the Bridge webhook)
              let transfer := { transfer with
                legs := { transfer.legs with
                  leg3 := some
                    { provider := .tempo
                      externalId := "tempo_pending_" ++ transferId
                      status := .pending } } }
              (.ok transfer, storeSet s transferId transfer)

/-- Payload of a Pay.tech webhook. -/
structure PaytechWebhookEvent where
  status : String
  transferId : String
deriving DecidableEq, Repr

/-- Webhook handler for leg 1: `handlePaytechWebhook`. -/
def handlePaytechWebhook (s : Store) (transferId : String)
    (paytechEvent : PaytechWebhookEvent) (now : Nat) (eid : String) :
    Except String Unit × Store :=
  match storeGet s transferId with
  | none => (.error ("Transfer " ++ transferId ++ " not found"), s)
  | some transfer =>
      if paytechEvent.status = "settled" then
        let transfer :=
          match transfer.legs.leg1 with
          | some leg1 => { transfer with
              legs := { transfer.legs with
                leg1 := some { leg1 with status := .completed, completedAt := some now } } }
          | none => transfer
        let transfer := addEvent transfer .bridging
          ("✓ Fiat received by Pay.tech. Bridge now converting " ++
            transfer.quote.route.sourceCurrency.str ++ " → " ++
            transfer.quote.route.leg2.stablecoin.str ++ " on " ++
            transfer.quote.route.leg2.network.str ++ "...") [] now eid
        (.ok (), storeSet s transferId transfer)
      else if paytechEvent.status = "failed" then
        let transfer :=
          match transfer.legs.leg1 with
          | some leg1 => { transfer with
              legs := { transfer.legs with leg1 := some { leg1 with status := .failed } } }
          | none => transfer
        let transfer := addEvent transfer .failed
          "Pay.tech fiat collection failed. Transfer cancelled." [] now eid
        (.ok (), storeSet s transferId transfer)
      else
        (.ok (), storeSet s transferId transfer)

/-- Payload of a Bridge webhook; `amount` is the value of
`parseFloat(bridgeEvent.amount)`. -/
structure BridgeWebhookEvent where
  state : String
  transferId : String
  txHash : Option String := none
  amount : ℚ
deriving DecidableEq, Repr

/-- Webhook handler for leg 2: `handleBridgeWebhook`.  On
`payment_processed` it synchronously initiates leg 3; the two awaited
Tempo calls (`getTempoQuote`, `createTempoPayment`) arrive as `Except`
arguments, a `.error` landing in the `catch` block.  `ids` supplies the
`uuidv4()` draws for the appended timeline events. -/
def handleBridgeWebhook (s : Store) (transferId : String)
    (bridgeEvent : BridgeWebhookEvent) (now : Nat) (ids : Nat → String)
    (tempoQuoteRes : Except String TempoQuote)
    (tempoPaymentRes : Except String TempoPaymentRes) :
    Except String Unit × Store :=
  match storeGet s transferId with
  | none => (.error ("Transfer " ++ transferId ++ " not found"), s)
  | some transfer =>
      if bridgeEvent.state = "payment_processed" then
        let transfer :=
          match transfer.legs.leg2 with
          | some leg2 => { transfer with
              legs := { transfer.legs with
                leg2 := some { leg2 with
                  status := .completed
                  completedAt := some now
                  txHash := bridgeEvent.txHash } } }
          | none => transfer
        let transfer := addEvent transfer .converting
          ("✓ Bridge converted to " ++ toString bridgeEvent.amount ++ " USDC on " ++
            transfer.quote.route.leg2.network.str ++ ". Tx: " ++
            (match bridgeEvent.txHash with
             | some h => h.take 12
             | none => "undefined") ++ "...")
          [("txHash", (bridgeEvent.txHash).getD "undefined")] now (ids 0)
        -- now trigger Tempo final settlement (leg 3)
        let transfer := addEvent transfer .settling
          ("Tempo initiating " ++ transfer.quote.route.destinationCurrency.str ++
            " bank settlement for recipient...") [] now (ids 1)
        match tempoQuoteRes with
        | .error e =>
            let transfer := addEvent transfer .failed
              ("Tempo settlement failed: " ++ e) [] now (ids 2)
            (.ok (), storeSet s transferId transfer)
        | .ok _tempoQuote =>
            match tempoPaymentRes with
            | .error e =>
                let transfer := addEvent transfer .failed
                  ("Tempo settlement failed: " ++ e) [] now (ids 2)
                (.ok (), storeSet s transferId transfer)
            | .ok tempoPayment =>
                let transfer :=
                  match transfer.legs.leg3 with
                  | some leg3 => { transfer with
                      legs := { transfer.legs with
                        leg3 := some { leg3 with
                          externalId := tempoPayment.id
                          status := .processing
                          startedAt := some now } } }
                  | none => transfer
                (.ok (), storeSet s transferId transfer)
      else
        (.ok (), storeSet s transferId transfer)

/-- Payload of a Tempo webhook. -/
structure TempoWebhookEvent where
  status : String
  paymentId : String
deriving DecidableEq, Repr

/-- Webhook handler for leg 3: `handleTempoWebhook`. -/
def handleTempoWebhook (s : Store) (transferId : String)
    (tempoEvent : TempoWebhookEvent) (now : Nat) (eid : String) :
    Except String Unit × Store :=
  match storeGet s transferId with
  | none => (.error ("Transfer " ++ transferId ++ " not found"), s)
  | some transfer =>
      if tempoEvent.status = "settled" ∨ tempoEvent.status = "completed" then
        let transfer :=
          match transfer.legs.leg3 with
          | some leg3 => { transfer with
              legs := { transfer.legs with
                leg3 := some { leg3 with status := .completed, completedAt := some now } } }
          | none => transfer
        let transfer := { transfer with completedAt := some now }
        let transfer := addEvent transfer .completed
          ("✓ Transfer complete! " ++ toString transfer.quote.receiveAmount ++ " " ++
            transfer.quote.route.destinationCurrency.str ++ " delivered to " ++
            transfer.request.recipient.name ++ ".") [] now eid
        (.ok (), storeSet s transferId transfer)
      else if tempoEvent.status = "failed" ∨ tempoEvent.status = "rejected" then
        let transfer :=
          match transfer.legs.leg3 with
          | some leg3 => { transfer with
              legs := { transfer.legs with leg3 := some { leg3 with status := .failed } } }
          | none => transfer
        let transfer := addEvent transfer .failed
          "Tempo bank settlement failed. Support team has been notified." [] now eid
        (.ok (), storeSet s transferId transfer)
      else
        (.ok (), storeSet s transferId transfer)

/-- Lookup by id: `getTransfer`. -/
def getTransfer (s : Store) (transferId : String) : Option Transfer :=
  storeGet s transferId

/-! Helper lemmas about the store and `addEvent`. -/

theorem storeGet_storeSet_self (s : Store) (k : String) (t : Transfer) :
    storeGet (storeSet s k t) k = some t := by
  induction s with
  | nil => simp [storeGet, storeSet]
  | cons hd tl ih =>
      obtain ⟨k2, v⟩ := hd
      by_cases h : k2 = k
      · simp [storeGet, storeSet, h]
      · simp [storeGet, storeSet, h, ih]

/-- Timeline/status/updatedAt coherence: the timeline is non-empty, the
transfer status is the status of its last event and `updatedAt` is that
event's timestamp. -/
def tsOk (t : Transfer) : Prop :=
  t.timeline.getLast?.map TimelineEvent.status = some t.status ∧
  t.timeline.getLast?.map TimelineEvent.timestamp = some t.updatedAt

theorem tsOk_addEvent (t : Transfer) (st : TransferStatus) (msg : String)
    (md : List (String × String)) (now : Nat) (eid : String) :
    tsOk (addEvent t st msg md now eid) := by
  simp [tsOk, addEvent, List.getLast?_concat]

theorem tsOk_nonempty {t : Transfer} (h : tsOk t) : t.timeline ≠ [] := by
  intro hnil
  rcases h with ⟨h1, _⟩
  rw [hnil] at h1
  simp at h1

/-! Concrete sample data used by witnesses and counterexamples. -/

/-- Sample three-leg route for a USD → PHP corridor. -/
def sampleRoute : TransferRoute :=
  { id := "r1"
    sourceCurrency := .USD
    destinationCurrency := .PHP
    sourceCountry := "US"
    destinationCountry := "PH"
    leg1 := { provider := .paytech, method := .bank_transfer, estimatedTime := 900, fee := 5 }
    leg2 := { provider := .bridge, stablecoin := .USDC, network := .base,
              estimatedTime := 30, fee := 1, fxRate := 1 }
    leg3 := { provider := .tempo, method := .local_rails, estimatedTime := 3600,
              fee := 1, fxRate := 50 }
    totalFee := 12
    effectiveRate := 4965 / 100
    estimatedTotalTime := 4530 }

/-- Sample quote over `sampleRoute`. -/
def sampleQuote : TransferQuote :=
  { quoteId := "q1"
    route := sampleRoute
    sendAmount := 1000
    receiveAmount := 49650
    exchangeRate := 4965 / 100
    fees := { paytech := 5, bridge := 1, tempo := 1, platform := 5, total := 12 }
    expiresAt := 300000
    createdAt := 0 }

/-- Sample transfer request. -/
def sampleRequest : TransferRequest :=
  { quoteId := "q1"
    sender := { name := "Alice", email := "alice@example.com" }
    recipient :=
      { name := "Bob"
        mobileWallet := some { provider := "gcash", phoneNumber := "+639170000000", country := "PH" } }
    purpose := .family_support }

/-- Sample transfer in the state reached after a successful `createTransfer`
(leg 1 processing, leg 2 pending, leg 3 pre-created). -/
def sampleTransfer : Transfer :=
  { id := "t1"
    status := .processing
    quote := sampleQuote
    request := sampleRequest
    legs :=
      { leg1 := some { provider := .paytech, externalId := "pt1", status := .processing,
                       startedAt := some 1 }
        leg2 := some { provider := .bridge, externalId := "bl1", status := .pending }
        leg3 := some { provider := .tempo, externalId := "tempo_pending_t1", status := .pending } }
    timeline :=
      [{ id := "e0", timestamp := 1, status := .processing,
         message := "Transfer initiated. Setting up payment infrastructure." }]
    createdAt := 1
    updatedAt := 1 }

/-- Sample transfer already in the terminal status `completed`. -/
def sampleCompletedTransfer : Transfer :=
  { sampleTransfer with
      status := .completed
      completedAt := some 2
      updatedAt := 2
      legs :=
        { leg1 := some { provider := .paytech, externalId := "pt1", status := .completed,
                         startedAt := some 1, completedAt := some 2 }
          leg2 := some { provider := .bridge, externalId := "bl1", status := .completed,
                         completedAt := some 2 }
          leg3 := some { provider := .tempo, externalId := "tp1", status := .completed,
                         completedAt := some 2 } }
      timeline :=
        sampleTransfer.timeline ++
          [{ id := "e1", timestamp := 2, status := .completed, message := "done" }] }

/-- Sample transfer mid-flight in status `settling` (leg 3 processing). -/
def sampleSettlingTransfer : Transfer :=
  { sampleTransfer with
      status := .settling
      legs :=
        { leg1 := some { provider := .paytech, externalId := "pt1", status := .completed,
                         startedAt := some 1, completedAt := some 2 }
          leg2 := some { provider := .bridge, externalId := "bl1", status := .completed,
                         completedAt := some 3, txHash := some "0xdeadbeef" }
          leg3 := some { provider := .tempo, externalId := "tp1", status := .processing,
                         startedAt := some 3 } }
      timeline :=
        sampleTransfer.timeline ++
          [{ id := "e1", timestamp := 3, status := .settling, message := "settling" }]
      updatedAt := 3 }

/-! Claim theorems. -/

/-- C1: for every quote request with positive `sendAmount` and the three
leg-quote responses returned by the adapters, `getTransferQuote` computes
the receive amount by the chained pipeline formula
`afterLeg1 = sendAmount - leg1.fee`,
`stablecoinAmount = afterLeg1 * leg2.rate - leg2.fee`,
`receiveAmount = (stablecoinAmount - leg3.fee) * leg3.rate`, the platform
fee is `sendAmount * PLATFORM_FEE_BPS / 10000` and is added on top of the
three provider fees in the reported total, and rounding (2 decimals for
amounts, 6 for rates) is applied only to the output fields, never inside
the chain. -/
theorem getTransferQuote_pipeline (request : QuoteRequest)
    (pq : PaytechFeeQuote) (bq : BridgeFxQuote) (tq : TempoQuote)
    (routeId quoteId : String) (now : Nat)
    (hpos : 0 < request.sendAmount) :
    ∃ q : TransferQuote,
      getTransferQuote request (.ok pq) (.ok bq) (.ok tq) routeId quoteId now = .ok q ∧
      q.receiveAmount =
        round2 ((((request.sendAmount - pq.fee) * bq.exchangeRate - bq.fee) - tq.fee) *
          tq.exchangeRate) ∧
      q.fees.platform = request.sendAmount * PLATFORM_FEE_BPS / 10000 ∧
      q.fees.total =
        round2 (pq.fee + bq.fee / bq.exchangeRate + tq.fee / bq.exchangeRate +
          request.sendAmount * PLATFORM_FEE_BPS / 10000) ∧
      q.exchangeRate =
        round6 (((((request.sendAmount - pq.fee) * bq.exchangeRate - bq.fee) - tq.fee) *
          tq.exchangeRate) / request.sendAmount) ∧
      q.sendAmount = request.sendAmount :=
  ⟨_, rfl, rfl, rfl, rfl, rfl, rfl⟩

/-- Witness for C1 at `sendAmount = 1000`, fees `5, 1, 1`, rates `1, 50`. -/
theorem getTransferQuote_pipeline_witness :
    (0 : ℚ) < (1000 : ℚ) ∧
    ∃ q : TransferQuote,
      getTransferQuote ⟨1000, .USD, .PHP, "US", "PH"⟩
        (.ok ⟨5, 900⟩) (.ok ⟨1, 1, 30⟩) (.ok ⟨"tq1", 50, 1, .local_rails, 3600⟩)
        "r1" "q1" 0 = .ok q ∧
      q.receiveAmount = round2 (((((1000 : ℚ) - 5) * 1 - 1) - 1) * 50) ∧
      q.fees.platform = (1000 : ℚ) * PLATFORM_FEE_BPS / 10000 ∧
      q.fees.total = round2 ((5 : ℚ) + 1 / 1 + 1 / 1 + 1000 * PLATFORM_FEE_BPS / 10000) ∧
      q.exchangeRate = round6 ((((((1000 : ℚ) - 5) * 1 - 1) - 1) * 50) / 1000) ∧
      q.sendAmount = (1000 : ℚ) :=
  ⟨by norm_num,
    getTransferQuote_pipeline ⟨1000, .USD, .PHP, "US", "PH"⟩
      ⟨5, 900⟩ ⟨1, 1, 30⟩ ⟨"tq1", 50, 1, .local_rails, 3600⟩ "r1" "q1" 0 (by norm_num)⟩

/-- C5: if any one of the three leg-quote calls fails, `getTransferQuote`
fails with an error and returns no quote at all. -/
theorem getTransferQuote_all_or_nothing (request : QuoteRequest)
    (paytechRes : Except String PaytechFeeQuote)
    (bridgeRes : Except String BridgeFxQuote)
    (tempoRes : Except String TempoQuote)
    (routeId quoteId : String) (now : Nat)
    (h : (∃ e, paytechRes = .error e) ∨ (∃ e, bridgeRes = .error e) ∨
         (∃ e, tempoRes = .error e)) :
    ∃ e, getTransferQuote request paytechRes bridgeRes tempoRes routeId quoteId now =
      .error e := by
  rcases h with ⟨e, he⟩ | ⟨e, he⟩ | ⟨e, he⟩
  · subst he
    exact ⟨e, rfl⟩
  · subst he
    cases paytechRes with
    | error e2 => exact ⟨e2, rfl⟩
    | ok _ => exact ⟨e, rfl⟩
  · subst he
    cases paytechRes with
    | error e2 => exact ⟨e2, rfl⟩
    | ok _ =>
        cases bridgeRes with
        | error e2 => exact ⟨e2, rfl⟩
        | ok _ => exact ⟨e, rfl⟩

/-- Witness for C5: the Bridge leg-quote call fails. -/
theorem getTransferQuote_all_or_nothing_witness :
    ((∃ e, (Except.ok (⟨5, 900⟩ : PaytechFeeQuote) : Except String PaytechFeeQuote) = .error e) ∨
     (∃ e, (Except.error "bridge down" : Except String BridgeFxQuote) = .error e) ∨
     (∃ e, (Except.ok (⟨"tq1", 50, 1, .local_rails, 3600⟩ : TempoQuote) :
        Except String TempoQuote) = .error e)) ∧
    ∃ e, getTransferQuote ⟨1000, .USD, .PHP, "US", "PH"⟩
      (.ok ⟨5, 900⟩) (.error "bridge down") (.ok ⟨"tq1", 50, 1, .local_rails, 3600⟩)
      "r1" "q1" 0 = .error e :=
  ⟨Or.inr (Or.inl ⟨"bridge down", rfl⟩),
    getTransferQuote_all_or_nothing ⟨1000, .USD, .PHP, "US", "PH"⟩
      (.ok ⟨5, 900⟩) (.error "bridge down") (.ok ⟨"tq1", 50, 1, .local_rails, 3600⟩)
      "r1" "q1" 0 (Or.inr (Or.inl ⟨"bridge down", rfl⟩))⟩

/-- C7: for every transfer id absent from the store, each of the three
webhook handlers raises a not-found error and performs no write: the
returned store is identical to the store before the call. -/
theorem webhook_not_found_no_write (s : Store) (transferId : String)
    (pev : PaytechWebhookEvent) (bev : BridgeWebhookEvent) (tev : TempoWebhookEvent)
    (now : Nat) (eid : String) (ids : Nat → String)
    (tqRes : Except String TempoQuote) (tpRes : Except String TempoPaymentRes)
    (h : storeGet s transferId = none) :
    handlePaytechWebhook s transferId pev now eid =
      (.error ("Transfer " ++ transferId ++ " not found"), s) ∧
    handleBridgeWebhook s transferId bev now ids tqRes tpRes =
      (.error ("Transfer " ++ transferId ++ " not found"), s) ∧
    handleTempoWebhook s transferId tev now eid =
      (.error ("Transfer " ++ transferId ++ " not found"), s) := by
  refine ⟨?_, ?_, ?_⟩
  · simp [handlePaytechWebhook, h]
  · simp [handleBridgeWebhook, h]
  · simp [handleTempoWebhook, h]

/-- Witness for C7 on the empty store. -/
theorem webhook_not_found_no_write_witness :
    storeGet [] "t1" = none ∧
    handlePaytechWebhook [] "t1" ⟨"settled", "pt1"⟩ 5 "e1" =
      (.error ("Transfer " ++ "t1" ++ " not found"), []) ∧
    handleBridgeWebhook [] "t1" ⟨"payment_processed", "t1", some "0xabc", 995⟩ 5
      (fun _ => "e") (.ok ⟨"tq1", 50, 1, .local_rails, 3600⟩) (.ok ⟨"tp1"⟩) =
      (.error ("Transfer " ++ "t1" ++ " not found"), []) ∧
    handleTempoWebhook [] "t1" ⟨"settled", "tp1"⟩ 5 "e1" =
      (.error ("Transfer " ++ "t1" ++ " not found"), []) :=
  ⟨rfl,
    (webhook_not_found_no_write [] "t1" ⟨"settled", "pt1"⟩
      ⟨"payment_processed", "t1", some "0xabc", 995⟩ ⟨"settled", "tp1"⟩ 5 "e1"
      (fun _ => "e") (.ok ⟨"tq1", 50, 1, .local_rails, 3600⟩) (.ok ⟨"tp1"⟩) rfl).1,
    (webhook_not_found_no_write [] "t1" ⟨"settled", "pt1"⟩
      ⟨"payment_processed", "t1", some "0xabc", 995⟩ ⟨"settled", "tp1"⟩ 5 "e1"
      (fun _ => "e") (.ok ⟨"tq1", 50, 1, .local_rails, 3600⟩) (.ok ⟨"tp1"⟩) rfl).2.1,
    (webhook_not_found_no_write [] "t1" ⟨"settled", "pt1"⟩
      ⟨"payment_processed", "t1", some "0xabc", 995⟩ ⟨"settled", "tp1"⟩ 5 "e1"
      (fun _ => "e") (.ok ⟨"tq1", 50, 1, .local_rails, 3600⟩) (.ok ⟨"tp1"⟩) rfl).2.2⟩

/-- C2 counterexample: the transfer is already in the terminal status
`completed`, yet delivering a Pay.tech `settled` webhook appends another
`TimelineEvent` and moves the status to `bridging` — the delivery is not a
no-op. -/
theorem webhook_after_terminal_counterexample :
    sampleCompletedTransfer.status = .completed ∧
    sampleCompletedTransfer.timeline.length = 2 ∧
    (storeGet (handlePaytechWebhook [("t1", sampleCompletedTransfer)] "t1"
        ⟨"settled", "pt1"⟩ 30 "e9").2 "t1").map Transfer.status = some .bridging ∧
    (storeGet (handlePaytechWebhook [("t1", sampleCompletedTransfer)] "t1"
        ⟨"settled", "pt1"⟩ 30 "e9").2 "t1").map (fun t => t.timeline.length) = some 3 := by
  exact ⟨rfl, rfl, rfl, rfl⟩

/-- C2 amended: the webhook handlers never inspect the current status
before mutating, so a recognized event delivered to a transfer in a
terminal status is applied anyway: a Pay.tech `settled` webhook on a
`completed`, `failed` or `cancelled` transfer appends a new `bridging`
timeline event and sets the status to `bridging`. -/
theorem paytech_settled_ignores_terminal_status (s : Store) (id pid : String)
    (t : Transfer) (now : Nat) (eid : String)
    (hget : storeGet s id = some t)
    (hterm : t.status = .completed ∨ t.status = .failed ∨ t.status = .cancelled) :
    (storeGet (handlePaytechWebhook s id ⟨"settled", pid⟩ now eid).2 id).map
        Transfer.status = some .bridging ∧
    (storeGet (handlePaytechWebhook s id ⟨"settled", pid⟩ now eid).2 id).map
        (fun t2 => t2.timeline.length) = some (t.timeline.length + 1) := by
  cases hl : t.legs.leg1 with
  | none => simp [handlePaytechWebhook, hget, hl, storeGet_storeSet_self, addEvent]
  | some l1 => simp [handlePaytechWebhook, hget, hl, storeGet_storeSet_self, addEvent]

/-- Witness for the amended C2 on a concrete completed transfer. -/
theorem paytech_settled_ignores_terminal_status_witness :
    storeGet [("t1", sampleCompletedTransfer)] "t1" = some sampleCompletedTransfer ∧
    (sampleCompletedTransfer.status = .completed ∨
     sampleCompletedTransfer.status = .failed ∨
     sampleCompletedTransfer.status = .cancelled) ∧
    (storeGet (handlePaytechWebhook [("t1", sampleCompletedTransfer)] "t1"
        ⟨"settled", "pt1"⟩ 30 "e9").2 "t1").map Transfer.status = some .bridging ∧
    (storeGet (handlePaytechWebhook [("t1", sampleCompletedTransfer)] "t1"
        ⟨"settled", "pt1"⟩ 30 "e9").2 "t1").map
        (fun t2 => t2.timeline.length) = some (sampleCompletedTransfer.timeline.length + 1) :=
  ⟨rfl, Or.inl rfl,
    paytech_settled_ignores_terminal_status [("t1", sampleCompletedTransfer)] "t1" "pt1"
      sampleCompletedTransfer 30 "e9" rfl (Or.inl rfl)⟩

/-- C3 counterexample: a sequence of two valid Pay.tech webhook events,
`settled` followed by `failed`, first moves leg 1 to `completed` and then
overwrites it to `failed` — a regression the claim forbids. -/
theorem leg_status_regression_counterexample :
    (((storeGet (handlePaytechWebhook [("t1", sampleTransfer)] "t1"
          ⟨"settled", "pt1"⟩ 10 "e1").2 "t1").bind (fun t => t.legs.leg1)).map
        LegStatus.status = some .completed) ∧
    (((storeGet (handlePaytechWebhook
          (handlePaytechWebhook [("t1", sampleTransfer)] "t1"
            ⟨"settled", "pt1"⟩ 10 "e1").2 "t1"
          ⟨"failed", "pt1"⟩ 20 "e2").2 "t1").bind (fun t => t.legs.leg1)).map
        LegStatus.status = some .failed) := by
  exact ⟨rfl, rfl⟩

/-- C3 amended: a webhook handler overwrites the leg status with the
outcome named by the event alone, without reading the current leg status;
in particular a Pay.tech `failed` event sets leg 1 to `failed` even when
leg 1 is already `completed`, so leg statuses can regress under
conflicting or duplicate deliveries. -/
theorem paytech_failed_overwrites_completed_leg (s : Store) (id pid : String)
    (t : Transfer) (l1 : LegStatus) (now : Nat) (eid : String)
    (hget : storeGet s id = some t)
    (hleg : t.legs.leg1 = some l1)
    (hcompleted : l1.status = .completed) :
    ((storeGet (handlePaytechWebhook s id ⟨"failed", pid⟩ now eid).2 id).bind
        (fun t2 => t2.legs.leg1)).map LegStatus.status = some .failed := by
  simp [handlePaytechWebhook, hget, hleg, storeGet_storeSet_self, addEvent]

/-- Witness for the amended C3 on a transfer whose leg 1 is completed. -/
theorem paytech_failed_overwrites_completed_leg_witness :
    storeGet [("t1", sampleSettlingTransfer)] "t1" = some sampleSettlingTransfer ∧
    sampleSettlingTransfer.legs.leg1 =
      some { provider := .paytech, externalId := "pt1", status := .completed,
             startedAt := some 1, completedAt := some 2 } ∧
    (({ provider := .paytech, externalId := "pt1", status := .completed,
        startedAt := some 1, completedAt := some 2 } : LegStatus).status =
      LegState.completed) ∧
    ((storeGet (handlePaytechWebhook [("t1", sampleSettlingTransfer)] "t1"
        ⟨"failed", "pt1"⟩ 30 "e9").2 "t1").bind
        (fun t2 => t2.legs.leg1)).map LegStatus.status = some .failed :=
  ⟨rfl, rfl, rfl,
    paytech_failed_overwrites_completed_leg [("t1", sampleSettlingTransfer)] "t1" "pt1"
      sampleSettlingTransfer
      { provider := .paytech, externalId := "pt1", status := .completed,
        startedAt := some 1, completedAt := some 2 } 30 "e9" rfl rfl rfl⟩

/-- C10: when `handlePaytechWebhook` receives `settled` for a stored
transfer that has no leg-1 record, it still appends a `bridging` timeline
event and sets the status to `bridging` (only the leg-1 field update is
guarded); likewise a `failed` event moves such a transfer to `failed`. -/
theorem paytech_webhook_without_leg1 (s : Store) (id pid : String)
    (t : Transfer) (now : Nat) (eid : String)
    (hget : storeGet s id = some t)
    (hleg : t.legs.leg1 = none) :
    ((storeGet (handlePaytechWebhook s id ⟨"settled", pid⟩ now eid).2 id).map
        Transfer.status = some .bridging) ∧
    ((storeGet (handlePaytechWebhook s id ⟨"settled", pid⟩ now eid).2 id).map
        (fun t2 => t2.timeline.length) = some (t.timeline.length + 1)) ∧
    ((storeGet (handlePaytechWebhook s id ⟨"settled", pid⟩ now eid).2 id).map
        (fun t2 => Option.map TimelineEvent.status t2.timeline.getLast?) =
      some (some .bridging)) ∧
    ((storeGet (handlePaytechWebhook s id ⟨"settled", pid⟩ now eid).2 id).map
        (fun t2 => t2.legs.leg1) = some none) ∧
    ((storeGet (handlePaytechWebhook s id ⟨"failed", pid⟩ now eid).2 id).map
        Transfer.status = some .failed) := by
  refine ⟨?_, ?_, ?_, ?_, ?_⟩ <;>
    simp [handlePaytechWebhook, hget, hleg, storeGet_storeSet_self, addEvent,
      List.getLast?_concat]

/-- Witness for C10 on a stored transfer without a leg-1 record. -/
theorem paytech_webhook_without_leg1_witness :
    storeGet [("t1", { sampleTransfer with legs := {} })] "t1" =
      some { sampleTransfer with legs := {} } ∧
    ({ sampleTransfer with legs := {} } : Transfer).legs.leg1 = none ∧
    ((storeGet (handlePaytechWebhook [("t1", { sampleTransfer with legs := {} })] "t1"
        ⟨"settled", "pt1"⟩ 30 "e9").2 "t1").map Transfer.status = some .bridging) ∧
    ((storeGet (handlePaytechWebhook [("t1", { sampleTransfer with legs := {} })] "t1"
        ⟨"failed", "pt1"⟩ 30 "e9").2 "t1").map Transfer.status = some .failed) :=
  ⟨rfl, rfl,
    (paytech_webhook_without_leg1 [("t1", { sampleTransfer with legs := {} })] "t1" "pt1"
      { sampleTransfer with legs := {} } 30 "e9" rfl rfl).1,
    (paytech_webhook_without_leg1 [("t1", { sampleTransfer with legs := {} })] "t1" "pt1"
      { sampleTransfer with legs := {} } 30 "e9" rfl rfl).2.2.2.2⟩

/-- C6: when a leg-2 webhook with state `payment_processed` is handled and
the subsequent leg-3 initiation (the Tempo quote or the Tempo payment
call) throws, the transfer ends in status `failed`, while leg 2 remains
`completed` with the recorded txHash and the leg-3 record is exactly what
it was before the handler ran. -/
theorem bridge_leg3_failure_preserves_leg2 (s : Store) (id tid : String)
    (t : Transfer) (l2 : LegStatus) (txh : Option String) (amt : ℚ)
    (now : Nat) (ids : Nat → String)
    (tqRes : Except String TempoQuote) (tpRes : Except String TempoPaymentRes)
    (hget : storeGet s id = some t)
    (hleg2 : t.legs.leg2 = some l2)
    (hfail : (∃ e, tqRes = .error e) ∨ (∃ q e, tqRes = .ok q ∧ tpRes = .error e)) :
    ((storeGet (handleBridgeWebhook s id ⟨"payment_processed", tid, txh, amt⟩ now ids
        tqRes tpRes).2 id).map Transfer.status = some .failed) ∧
    ((storeGet (handleBridgeWebhook s id ⟨"payment_processed", tid, txh, amt⟩ now ids
        tqRes tpRes).2 id).map (fun t2 => t2.legs.leg2) =
      some (some { l2 with status := .completed, completedAt := some now, txHash := txh })) ∧
    ((storeGet (handleBridgeWebhook s id ⟨"payment_processed", tid, txh, amt⟩ now ids
        tqRes tpRes).2 id).map (fun t2 => t2.legs.leg3) = some t.legs.leg3) := by
  rcases hfail with ⟨e, he⟩ | ⟨q, e, hq, he⟩
  · subst he
    refine ⟨?_, ?_, ?_⟩ <;>
      simp [handleBridgeWebhook, hget, hleg2, storeGet_storeSet_self, addEvent]
  · subst hq
    subst he
    refine ⟨?_, ?_, ?_⟩ <;>
      simp [handleBridgeWebhook, hget, hleg2, storeGet_storeSet_self, addEvent]

/-- Witness for C6: Tempo quote call fails after a `payment_processed`
Bridge webhook on `sampleTransfer`. -/
theorem bridge_leg3_failure_preserves_leg2_witness :
    storeGet [("t1", sampleTransfer)] "t1" = some sampleTransfer ∧
    sampleTransfer.legs.leg2 =
      some { provider := .bridge, externalId := "bl1", status := .pending } ∧
    ((∃ e, (Except.error "tempo down" : Except String TempoQuote) = .error e) ∨
     (∃ q e, (Except.error "tempo down" : Except String TempoQuote) = .ok q ∧
       (Except.ok ⟨"tp1"⟩ : Except String TempoPaymentRes) = .error e)) ∧
    ((storeGet (handleBridgeWebhook [("t1", sampleTransfer)] "t1"
        ⟨"payment_processed", "t1", some "0xabc", 995⟩ 30 (fun n => "b" ++ toString n)
        (.error "tempo down") (.ok ⟨"tp1"⟩)).2 "t1").map Transfer.status =
      some .failed) ∧
    ((storeGet (handleBridgeWebhook [("t1", sampleTransfer)] "t1"
        ⟨"payment_processed", "t1", some "0xabc", 995⟩ 30 (fun n => "b" ++ toString n)
        (.error "tempo down") (.ok ⟨"tp1"⟩)).2 "t1").map (fun t2 => t2.legs.leg2) =
      some (some { provider := .bridge, externalId := "bl1", status := .completed,
                   startedAt := none, completedAt := some 30, txHash := some "0xabc",
                   errorMessage := none })) ∧
    ((storeGet (handleBridgeWebhook [("t1", sampleTransfer)] "t1"
        ⟨"payment_processed", "t1", some "0xabc", 995⟩ 30 (fun n => "b" ++ toString n)
        (.error "tempo down") (.ok ⟨"tp1"⟩)).2 "t1").map (fun t2 => t2.legs.leg3) =
      some sampleTransfer.legs.leg3) :=
  ⟨rfl, rfl, Or.inl ⟨"tempo down", rfl⟩,
    (bridge_leg3_failure_preserves_leg2 [("t1", sampleTransfer)] "t1" "t1" sampleTransfer
      { provider := .bridge, externalId := "bl1", status := .pending }
      (some "0xabc") 995 30 (fun n => "b" ++ toString n)
      (.error "tempo down") (.ok ⟨"tp1"⟩) rfl rfl (Or.inl ⟨"tempo down", rfl⟩)).1,
    (bridge_leg3_failure_preserves_leg2 [("t1", sampleTransfer)] "t1" "t1" sampleTransfer
      { provider := .bridge, externalId := "bl1", status := .pending }
      (some "0xabc") 995 30 (fun n => "b" ++ toString n)
      (.error "tempo down") (.ok ⟨"tp1"⟩) rfl rfl (Or.inl ⟨"tempo down", rfl⟩)).2.1,
    (bridge_leg3_failure_preserves_leg2 [("t1", sampleTransfer)] "t1" "t1" sampleTransfer
      { provider := .bridge, externalId := "bl1", status := .pending }
      (some "0xabc") 995 30 (fun n => "b" ++ toString n)
      (.error "tempo down") (.ok ⟨"tp1"⟩) rfl rfl (Or.inl ⟨"tempo down", rfl⟩)).2.2⟩

/-- C8 counterexample: a successful `createTransfer` run ends with a leg-3
record that already carries an externalId (`tempo_pending_t1`) while its
status is still `pending` — `createTransfer` never calls the leg-3
initiation (`createTempoPayment` is only invoked by the Bridge webhook
handler), so the leg holds an externalId before its initiation was
attempted. -/
theorem leg3_placeholder_externalId_counterexample :
    (((storeGet (createTransfer [] sampleRequest sampleQuote "t1" 1
          (fun n => "e" ++ toString n) (.ok ⟨"0xabc", "base", "usdc"⟩)
          (.ok ⟨"bl1", "0xdef"⟩) (.ok ⟨"pt1"⟩)).2 "t1").bind
        (fun t => t.legs.leg3)).map LegStatus.externalId = some "tempo_pending_t1") ∧
    (((storeGet (createTransfer [] sampleRequest sampleQuote "t1" 1
          (fun n => "e" ++ toString n) (.ok ⟨"0xabc", "base", "usdc"⟩)
          (.ok ⟨"bl1", "0xdef"⟩) (.ok ⟨"pt1"⟩)).2 "t1").bind
        (fun t => t.legs.leg3)).map LegStatus.status = some .pending) ∧
    ((createTransfer [] sampleRequest sampleQuote "t1" 1
        (fun n => "e" ++ toString n) (.ok ⟨"0xabc", "base", "usdc"⟩)
        (.ok ⟨"bl1", "0xdef"⟩) (.ok ⟨"pt1"⟩)).1.toOption.map Transfer.id = some "t1") := by
  exact ⟨rfl, rfl, rfl⟩

/-- C8 amended: legs 1 and 2 are assigned their externalId only from a
successful provider call (leg 1 from `initiatePaytechTransfer`, leg 2 from
`createBridgeLiquidationAddress`, and leg 1 stays absent when its
initiation fails), but leg 3 is pre-created by `createTransfer` with the
placeholder externalId `tempo_pending_<transferId>` and status `pending`
before any leg-3 initiation; the placeholder is replaced by the Tempo
payment id once the leg-3 initiation succeeds in the Bridge webhook
handler. -/
theorem externalId_assignment (s : Store) (request : TransferRequest)
    (quote : TransferQuote) (tid : String) (now : Nat) (ids : Nat → String)
    (ta : TempoDepositAddress) (bl : BridgeLiquidationAddressRes)
    (pt : PaytechTransferRes) (e : String) :
    ((storeGet (createTransfer s request quote tid now ids
        (.ok ta) (.ok bl) (.ok pt)).2 tid).map (fun tr => tr.legs.leg1) =
      some (some { provider := .paytech, externalId := pt.transferId,
                   status := .processing, startedAt := some now })) ∧
    ((storeGet (createTransfer s request quote tid now ids
        (.ok ta) (.ok bl) (.ok pt)).2 tid).map (fun tr => tr.legs.leg2) =
      some (some { provider := .bridge, externalId := bl.id, status := .pending })) ∧
    ((storeGet (createTransfer s request quote tid now ids
        (.ok ta) (.ok bl) (.ok pt)).2 tid).map (fun tr => tr.legs.leg3) =
      some (some { provider := .tempo, externalId := "tempo_pending_" ++ tid,
                   status := .pending })) ∧
    ((storeGet (createTransfer s request quote tid now ids
        (.ok ta) (.ok bl) (.error e)).2 tid).map (fun tr => tr.legs.leg1) =
      some none) := by
  refine ⟨?_, ?_, ?_, ?_⟩ <;>
    simp [createTransfer, storeGet_storeSet_self, addEvent]

/-- C9 counterexample: a transfer receives the Tempo `settled` webhook at
time 10 (stamping `completedAt = 10`) and a duplicate `settled` webhook at
time 20; the duplicate changes the already-set `completedAt` to 20. -/
theorem completedAt_restamped_counterexample :
    ((storeGet (handleTempoWebhook [("t1", sampleSettlingTransfer)] "t1"
        ⟨"settled", "tp1"⟩ 10 "e1").2 "t1").map Transfer.completedAt =
      some (some 10)) ∧
    ((storeGet (handleTempoWebhook
        (handleTempoWebhook [("t1", sampleSettlingTransfer)] "t1"
          ⟨"settled", "tp1"⟩ 10 "e1").2 "t1"
        ⟨"settled", "tp1"⟩ 20 "e2").2 "t1").map Transfer.completedAt =
      some (some 20)) ∧
    (some (some 10) : Option (Option Nat)) ≠ some (some 20) := by
  exact ⟨rfl, rfl, by decide⟩

/-- C9 amended: `completedAt` is stamped with the current time on every
delivery of a Tempo success webhook (`settled` or `completed`), not only
the first, so a repeated leg-3 completion webhook overwrites an
already-set `completedAt`; it is set nowhere else — `createTransfer`
leaves it unset and the Pay.tech handler, the Bridge handler and
non-success Tempo events preserve its value. -/
theorem completedAt_stamped_on_every_tempo_success :
    (∀ (s : Store) (id pid st : String) (t : Transfer) (now : Nat) (eid : String),
      storeGet s id = some t →
      (st = "settled" ∨ st = "completed") →
      (storeGet (handleTempoWebhook s id ⟨st, pid⟩ now eid).2 id).map
        Transfer.completedAt = some (some now)) ∧
    (∀ (s : Store) (request : TransferRequest) (quote : TransferQuote)
      (tid : String) (now : Nat) (ids : Nat → String)
      (taRes : Except String TempoDepositAddress)
      (blRes : Except String BridgeLiquidationAddressRes)
      (ptRes : Except String PaytechTransferRes),
      (storeGet (createTransfer s request quote tid now ids taRes blRes ptRes).2 tid).map
        Transfer.completedAt = some none) ∧
    (∀ (s : Store) (id : String) (pev : PaytechWebhookEvent) (t : Transfer)
      (now : Nat) (eid : String),
      storeGet s id = some t →
      (storeGet (handlePaytechWebhook s id pev now eid).2 id).map
        Transfer.completedAt = some t.completedAt) ∧
    (∀ (s : Store) (id : String) (bev : BridgeWebhookEvent) (t : Transfer)
      (now : Nat) (ids : Nat → String)
      (tqRes : Except String TempoQuote) (tpRes : Except String TempoPaymentRes),
      storeGet s id = some t →
      (storeGet (handleBridgeWebhook s id bev now ids tqRes tpRes).2 id).map
        Transfer.completedAt = some t.completedAt) ∧
    (∀ (s : Store) (id : String) (tev : TempoWebhookEvent) (t : Transfer)
      (now : Nat) (eid : String),
      storeGet s id = some t →
      tev.status ≠ "settled" → tev.status ≠ "completed" →
      (storeGet (handleTempoWebhook s id tev now eid).2 id).map
        Transfer.completedAt = some t.completedAt) := by
  refine ⟨?_, ?_, ?_, ?_, ?_⟩
  · intro s id pid st t now eid hget hst
    rcases hst with h | h <;> subst h <;> cases hl : t.legs.leg3 <;>
      simp [handleTempoWebhook, hget, hl, storeGet_storeSet_self, addEvent]
  · intro s request quote tid now ids taRes blRes ptRes
    cases taRes with
    | error e => simp [createTransfer, storeGet_storeSet_self, addEvent]
    | ok ta =>
        cases blRes with
        | error e => simp [createTransfer, storeGet_storeSet_self, addEvent]
        | ok bl =>
            cases ptRes with
            | error e => simp [createTransfer, storeGet_storeSet_self, addEvent]
            | ok pt => simp [createTransfer, storeGet_storeSet_self, addEvent]
  · intro s id pev t now eid hget
    by_cases h1 : pev.status = "settled"
    · cases hl : t.legs.leg1 <;>
        simp [handlePaytechWebhook, hget, h1, hl, storeGet_storeSet_self, addEvent]
    · by_cases h2 : pev.status = "failed"
      · cases hl : t.legs.leg1 <;>
          simp [handlePaytechWebhook, hget, h1, h2, hl, storeGet_storeSet_self, addEvent]
      · simp [handlePaytechWebhook, hget, h1, h2, storeGet_storeSet_self]
  · intro s id bev t now ids tqRes tpRes hget
    by_cases h1 : bev.state = "payment_processed"
    · cases hl2 : t.legs.leg2 <;> cases tqRes with
      | error e =>
          simp [handleBridgeWebhook, hget, h1, hl2, storeGet_storeSet_self, addEvent]
      | ok q =>
          cases tpRes with
          | error e =>
              simp [handleBridgeWebhook, hget, h1, hl2, storeGet_storeSet_self, addEvent]
          | ok p =>
              cases hl3 : t.legs.leg3 <;>
                simp [handleBridgeWebhook, hget, h1, hl2, hl3,
                  storeGet_storeSet_self, addEvent]
    · simp [handleBridgeWebhook, hget, h1, storeGet_storeSet_self]
  · intro s id tev t now eid hget h1 h2
    by_cases h3 : tev.status = "failed" ∨ tev.status = "rejected"
    · cases hl : t.legs.leg3 <;>
        simp [handleTempoWebhook, hget, h1, h2, h3, hl, storeGet_storeSet_self, addEvent]
    · simp [handleTempoWebhook, hget, h1, h2, h3, storeGet_storeSet_self]

/-- Witness for the amended C9: stamping at a success webhook and absence
of a stamp after `createTransfer`, at concrete inputs. -/
theorem completedAt_stamped_on_every_tempo_success_witness :
    storeGet [("t1", sampleSettlingTransfer)] "t1" = some sampleSettlingTransfer ∧
    (("settled" : String) = "settled" ∨ ("settled" : String) = "completed") ∧
    ((storeGet (handleTempoWebhook [("t1", sampleSettlingTransfer)] "t1"
        ⟨"settled", "tp1"⟩ 10 "e1").2 "t1").map Transfer.completedAt =
      some (some 10)) ∧
    ((storeGet (createTransfer [] sampleRequest sampleQuote "t1" 1
        (fun n => "e" ++ toString n) (.ok ⟨"0xabc", "base", "usdc"⟩)
        (.ok ⟨"bl1", "0xdef"⟩) (.ok ⟨"pt1"⟩)).2 "t1").map Transfer.completedAt =
      some none) :=
  ⟨rfl, Or.inl rfl,
    completedAt_stamped_on_every_tempo_success.1 [("t1", sampleSettlingTransfer)]
      "t1" "tp1" "settled" sampleSettlingTransfer 10 "e1" rfl (Or.inl rfl),
    completedAt_stamped_on_every_tempo_success.2.1 [] sampleRequest sampleQuote
      "t1" 1 (fun n => "e" ++ toString n) (.ok ⟨"0xabc", "base", "usdc"⟩)
      (.ok ⟨"bl1", "0xdef"⟩) (.ok ⟨"pt1"⟩)⟩

/-- C4: after any completed orchestrator operation the stored transfer has
a non-empty timeline, its status equals the status of the last timeline
event, and its `updatedAt` equals that event's timestamp (`tsOk`):
`createTransfer` establishes the invariant on both the stored and the
returned transfer (on every outcome), and each webhook handler preserves
it. -/
theorem status_matches_last_timeline_event :
    (∀ (s : Store) (request : TransferRequest) (quote : TransferQuote)
      (tid : String) (now : Nat) (ids : Nat → String)
      (taRes : Except String TempoDepositAddress)
      (blRes : Except String BridgeLiquidationAddressRes)
      (ptRes : Except String PaytechTransferRes) (t2 : Transfer),
      storeGet (createTransfer s request quote tid now ids taRes blRes ptRes).2 tid =
        some t2 → tsOk t2) ∧
    (∀ (s : Store) (request : TransferRequest) (quote : TransferQuote)
      (tid : String) (now : Nat) (ids : Nat → String)
      (taRes : Except String TempoDepositAddress)
      (blRes : Except String BridgeLiquidationAddressRes)
      (ptRes : Except String PaytechTransferRes) (t2 : Transfer),
      (createTransfer s request quote tid now ids taRes blRes ptRes).1 = .ok t2 →
      tsOk t2) ∧
    (∀ (s : Store) (id : String) (pev : PaytechWebhookEvent) (t t2 : Transfer)
      (now : Nat) (eid : String),
      storeGet s id = some t → tsOk t →
      storeGet (handlePaytechWebhook s id pev now eid).2 id = some t2 → tsOk t2) ∧
    (∀ (s : Store) (id : String) (bev : BridgeWebhookEvent) (t t2 : Transfer)
      (now : Nat) (ids : Nat → String)
      (tqRes : Except String TempoQuote) (tpRes : Except String TempoPaymentRes),
      storeGet s id = some t → tsOk t →
      storeGet (handleBridgeWebhook s id bev now ids tqRes tpRes).2 id = some t2 →
      tsOk t2) ∧
    (∀ (s : Store) (id : String) (tev : TempoWebhookEvent) (t t2 : Transfer)
      (now : Nat) (eid : String),
      storeGet s id = some t → tsOk t →
      storeGet (handleTempoWebhook s id tev now eid).2 id = some t2 → tsOk t2) := by
  refine ⟨?_, ?_, ?_, ?_, ?_⟩
  · intro s request quote tid now ids taRes blRes ptRes t2 h
    cases taRes with
    | error e =>
        simp [createTransfer, storeGet_storeSet_self] at h
        subst h
        simp [tsOk, addEvent, List.getLast?_concat]
    | ok ta =>
        cases blRes with
        | error e =>
            simp [createTransfer, storeGet_storeSet_self] at h
            subst h
            simp [tsOk, addEvent, List.getLast?_concat]
        | ok bl =>
            cases ptRes with
            | error e =>
                simp [createTransfer, storeGet_storeSet_self] at h
                subst h
                simp [tsOk, addEvent, List.getLast?_concat]
            | ok pt =>
                simp [createTransfer, storeGet_storeSet_self] at h
                subst h
                simp [tsOk, addEvent, List.getLast?_concat]
  · intro s request quote tid now ids taRes blRes ptRes t2 h
    cases taRes with
    | error e => simp [createTransfer] at h
    | ok ta =>
        cases blRes with
        | error e => simp [createTransfer] at h
        | ok bl =>
            cases ptRes with
            | error e => simp [createTransfer] at h
            | ok pt =>
                simp [createTransfer] at h
                subst h
                simp [tsOk, addEvent, List.getLast?_concat]
  · intro s id pev t t2 now eid hget hts h
    by_cases h1 : pev.status = "settled"
    · cases hl : t.legs.leg1 <;>
        · simp [handlePaytechWebhook, hget, h1, hl, storeGet_storeSet_self] at h
          subst h
          simp [tsOk, addEvent, List.getLast?_concat]
    · by_cases h2 : pev.status = "failed"
      · cases hl : t.legs.leg1 <;>
          · simp [handlePaytechWebhook, hget, h1, h2, hl, storeGet_storeSet_self] at h
            subst h
            simp [tsOk, addEvent, List.getLast?_concat]
      · simp [handlePaytechWebhook, hget, h1, h2, storeGet_storeSet_self] at h
        subst h
        exact hts
  · intro s id bev t t2 now ids tqRes tpRes hget hts h
    by_cases h1 : bev.state = "payment_processed"
    · cases hl2 : t.legs.leg2 <;> cases tqRes with
      | error e =>
          simp [handleBridgeWebhook, hget, h1, hl2, storeGet_storeSet_self] at h
          subst h
          simp [tsOk, addEvent, List.getLast?_concat]
      | ok q =>
          cases tpRes with
          | error e =>
              simp [handleBridgeWebhook, hget, h1, hl2, storeGet_storeSet_self] at h
              subst h
              simp [tsOk, addEvent, List.getLast?_concat]
          | ok p =>
              cases hl3 : t.legs.leg3 <;>
                · simp [handleBridgeWebhook, hget, h1, hl2, hl3,
                    storeGet_storeSet_self] at h
                  subst h
                  simp [tsOk, addEvent, List.getLast?_concat, hl2, hl3]
    · simp [handleBridgeWebhook, hget, h1, storeGet_storeSet_self] at h
      subst h
      exact hts
  · intro s id tev t t2 now eid hget hts h
    by_cases h1 : tev.status = "settled" ∨ tev.status = "completed"
    · cases hl : t.legs.leg3 <;>
        · simp [handleTempoWebhook, hget, h1, hl, storeGet_storeSet_self] at h
          subst h
          simp [tsOk, addEvent, List.getLast?_concat]
    · by_cases h2 : tev.status = "failed" ∨ tev.status = "rejected"
      · cases hl : t.legs.leg3 <;>
          · simp [handleTempoWebhook, hget, h1, h2, hl, storeGet_storeSet_self] at h
            subst h
            simp [tsOk, addEvent, List.getLast?_concat]
      · simp [handleTempoWebhook, hget, h1, h2, storeGet_storeSet_self] at h
        subst h
        exact hts

/-- Witness for C4: the invariant holds on the stored transfer of a
concrete successful `createTransfer`, and is preserved by a concrete
Pay.tech webhook delivery. -/
theorem status_matches_last_timeline_event_witness :
    (∀ t2, storeGet (createTransfer [] sampleRequest sampleQuote "t1" 1
        (fun n => "e" ++ toString n) (.ok ⟨"0xabc", "base", "usdc"⟩)
        (.ok ⟨"bl1", "0xdef"⟩) (.ok ⟨"pt1"⟩)).2 "t1" = some t2 → tsOk t2) ∧
    (∀ t2, storeGet (handlePaytechWebhook [("t1", sampleTransfer)] "t1"
        ⟨"settled", "pt1"⟩ 10 "e1").2 "t1" = some t2 → tsOk t2) :=
  ⟨fun t2 h => status_matches_last_timeline_event.1 [] sampleRequest sampleQuote
      "t1" 1 (fun n => "e" ++ toString n) (.ok ⟨"0xabc", "base", "usdc"⟩)
      (.ok ⟨"bl1", "0xdef"⟩) (.ok ⟨"pt1"⟩) t2 h,
    fun t2 h => status_matches_last_timeline_event.2.2.1 [("t1", sampleTransfer)]
      "t1" ⟨"settled", "pt1"⟩ sampleTransfer t2 10 "e1" rfl
      (by simp [sampleTransfer, tsOk]) h⟩
